import Mathlib

/-!
Shallow embedding of the meeting-agent backend (src/backend/agent.py and
src/backend/tools/) and proofs about its agent loop, tool dispatch and
artifact tools.  External effects (the OpenAI chat-completion client,
json.loads, datetime.now, the icalendar renderer, urllib quoting) are
modelled as explicit parameters; everything else is translated directly
from the source.
-/

namespace MeetingAgent

/-- JSON values, the payloads exchanged with tools (python dict/list/str/...). -/
inductive JValue where
  | null : JValue
  | bool (b : Bool) : JValue
  | str (s : String) : JValue
  | num (n : Int) : JValue
  | arr (elems : List JValue) : JValue
  | obj (fields : List (String × JValue)) : JValue

/-- A tool callable: python functions may return a dict or raise an exception,
modelled as an Except value. -/
def ToolFn : Type := JValue → Except String JValue

/-- One tool invocation request returned by the chat completion:
tc.id, tc.function.name, tc.function.arguments (a raw JSON string). -/
structure ToolCall where
  id : String
  name : String
  arguments : String

/-- Conversation messages (agent.py keeps them as dicts; the assistant
message is message.model_dump() and carries the tool calls, and tool
messages carry tool_call_id plus the json-dumped result). -/
inductive Msg where
  | system (content : String) : Msg
  | user (content : String) : Msg
  | assistant (content : Option String) (tool_calls : List ToolCall) : Msg
  | tool (tool_call_id : String) (content : JValue) : Msg

/-- Progress events yielded by run_agent (see the docstring at
agent.py lines 200-208). -/
inductive Event where
  | thinking (content : String) : Event
  | tool_call (tool : String) (arguments : JValue) : Event
  | tool_result (tool : String) (result : JValue) : Event
  | final (content : String) : Event
  | error (content : String) : Event

/-- Outcome of one client.chat.completions.create call: either a message
(content plus a possibly empty tool_calls list; python treats None and []
alike as falsy) or a raised exception. -/
inductive GatewayResult where
  | success (content : Option String) (tool_calls : List ToolCall) : GatewayResult
  | failure (msg : String) : GatewayResult

/-- One property entry of a tool parameter schema. -/
structure ParamProperty where
  name : String
  type : String
  description : String

/-- One entry of TOOLS_SCHEMA: a function declaration with name,
description and an object parameter shape with required fields. -/
structure ToolSchema where
  name : String
  description : String
  properties : List ParamProperty
  required : List String

/-- The request payload sent on each iteration (agent.py lines 225-230
and 243-248): model, messages, tools, tool_choice. -/
structure Request where
  model : String
  messages : List Msg
  tools : List ToolSchema
  tool_choice : String

/-- TOOLS_SCHEMA from agent.py lines 39-152, transcribed entry by entry. -/
def TOOLS_SCHEMA : List ToolSchema :=
  [ { name := "create_calendar_invite",
      description := "Create a calendar invite (.ics file) for a scheduled event mentioned in the meeting",
      properties :=
        [ ⟨"title", "string", "Title of the calendar event"⟩,
          ⟨"description", "string", "Description/agenda for the event"⟩,
          ⟨"start_time", "string", "Start time in ISO 8601 format (e.g. 2026-02-20T14:00:00)"⟩,
          ⟨"end_time", "string", "End time in ISO 8601 format (e.g. 2026-02-20T15:00:00)"⟩,
          ⟨"attendees", "array", "List of attendee names or emails"⟩ ],
      required := ["title", "start_time", "end_time"] },
    { name := "create_decision_record",
      description := "Create a structured decision record (ADR) for a decision made during the meeting",
      properties :=
        [ ⟨"title", "string", "Title of the decision"⟩,
          ⟨"context", "string", "Background context that led to this decision"⟩,
          ⟨"decision", "string", "The decision that was made"⟩,
          ⟨"consequences", "string", "Expected consequences and impact of this decision"⟩,
          ⟨"participants", "array", "People involved in making this decision"⟩,
          ⟨"date", "string", "Date of the decision in ISO 8601 format"⟩ ],
      required := ["title", "context", "decision"] },
    { name := "create_report",
      description := "Create a structured meeting report/summary",
      properties :=
        [ ⟨"title", "string", "Title of the meeting report"⟩,
          ⟨"summary", "string", "Executive summary of the meeting"⟩,
          ⟨"key_points", "array", "List of key discussion points"⟩,
          ⟨"action_items", "array", "List of action items with owners if known"⟩,
          ⟨"attendees", "array", "List of meeting attendees"⟩,
          ⟨"date", "string", "Date of the meeting"⟩ ],
      required := ["title", "summary", "key_points", "action_items"] } ]

/-- The six concrete tool callables of tools/ are external to the loop
claims; the registry fixes their names (tools/TOOL_REGISTRY in
tools/init, lines 8-15). -/
structure ToolImpls where
  create_calendar_invite : ToolFn
  create_decision_record : ToolFn
  create_report : ToolFn
  create_email_summary : ToolFn
  create_action_items : ToolFn
  analyze_sentiment : ToolFn

/-- TOOL_REGISTRY from tools/init lines 8-15: name-to-callable mapping. -/
def TOOL_REGISTRY (impl : ToolImpls) : List (String × ToolFn) :=
  [ ("create_calendar_invite", impl.create_calendar_invite),
    ("create_decision_record", impl.create_decision_record),
    ("create_report", impl.create_report),
    ("create_email_summary", impl.create_email_summary),
    ("create_action_items", impl.create_action_items),
    ("analyze_sentiment", impl.analyze_sentiment) ]

/-- Python dict .get lookup by name. -/
def lookupTool (reg : List (String × ToolFn)) (name : String) : Option ToolFn :=
  match reg with
  | [] => none
  | (k, f) :: rest => if k = name then some f else lookupTool rest name

/-- The error artifact dicts built in execute_tool. -/
def errObj (msg : String) : JValue := JValue.obj [("error", JValue.str msg)]

/-- execute_tool from agent.py lines 189-197: registry lookup, unknown
name yields an error dict, exceptions are caught into an error dict. -/
def execute_tool (reg : List (String × ToolFn)) (tool_name : String) (arguments : JValue) : JValue :=
  match lookupTool reg tool_name with
  | none => errObj ("Unknown tool: " ++ tool_name)
  | some func =>
    match func arguments with
    | Except.ok r => r
    | Except.error e => errObj ("Tool execution failed: " ++ e)

/-- json.loads on tool_call.function.arguments followed by the
JSONDecodeError handler at agent.py lines 280-283: a parse failure
yields the empty dict. -/
def parsedArgs (loads : String → Option JValue) (tc : ToolCall) : JValue :=
  (loads tc.arguments).getD (JValue.obj [])

/-- Events yielded for one tool call in the batch loop
(agent.py lines 287-304): tool_call then tool_result. -/
def callEvents (loads : String → Option JValue) (reg : List (String × ToolFn))
    (tc : ToolCall) : List Event :=
  [ Event.tool_call tc.name (parsedArgs loads tc),
    Event.tool_result tc.name (execute_tool reg tc.name (parsedArgs loads tc)) ]

/-- The tool-result message appended for one call
(agent.py lines 306-312), correlated by tool_call_id. -/
def callMessage (loads : String → Option JValue) (reg : List (String × ToolFn))
    (tc : ToolCall) : Msg :=
  Msg.tool tc.id (execute_tool reg tc.name (parsedArgs loads tc))

/-- All events of one Dispatching batch, in source order
(the for loop at agent.py lines 277-312). -/
def batchEvents (loads : String → Option JValue) (reg : List (String × ToolFn))
    (tcs : List ToolCall) : List Event :=
  tcs.flatMap (callEvents loads reg)

/-- All tool-result messages of one Dispatching batch, in source order. -/
def batchMessages (loads : String → Option JValue) (reg : List (String × ToolFn))
    (tcs : List ToolCall) : List Msg :=
  tcs.map (callMessage loads reg)

/-- The thinking event content yielded before each gateway call
(agent.py line 241). -/
def thinkingContent : String := "Analyzing transcript..."

/-- The synthetic final content at budget exhaustion (agent.py line 327). -/
def maxIterationsContent : String := "Agent finished (max iterations reached)."

/-- Python falsy-or on an optional string: message.content or
"Analysis complete." (agent.py line 315); None and the empty string both
fall back. -/
def pyOrString (c : Option String) (d : String) : String :=
  match c with
  | none => d
  | some s => if s = "" then d else s

/-- Request payload built each iteration (agent.py lines 225-230). -/
def mkRequest (model : String) (msgs : List Msg) : Request :=
  ⟨model, msgs, TOOLS_SCHEMA, "auto"⟩

/-- The observable outcome of a run: events yielded, gateway requests
made, and the final conversation. -/
structure RunOutput where
  events : List Event
  requests : List Request
  messages : List Msg

/-- The for loop of run_agent (agent.py lines 216-327).  fuel counts the
remaining range(max_iterations) passes; i indexes the gateway responses;
the gateway, json.loads and the registry callables are injected. -/
def agentLoop (gw : Nat → GatewayResult) (loads : String → Option JValue)
    (reg : List (String × ToolFn)) (model : String) :
    Nat → Nat → List Msg → RunOutput
  | 0, _, msgs => ⟨[Event.final maxIterationsContent], [], msgs⟩
  | fuel+1, i, msgs =>
    match gw i with
    | GatewayResult.failure e =>
      ⟨[Event.thinking thinkingContent, Event.error ("LLM API error: " ++ e)],
       [mkRequest model msgs], msgs⟩
    | GatewayResult.success content [] =>
      ⟨[Event.thinking thinkingContent, Event.final (pyOrString content "Analysis complete.")],
       [mkRequest model msgs], msgs⟩
    | GatewayResult.success content (tc :: rest) =>
      let tcs := tc :: rest
      let msgs1 := msgs ++ Msg.assistant content tcs :: batchMessages loads reg tcs
      let cont := agentLoop gw loads reg model fuel (i+1) msgs1
      ⟨Event.thinking thinkingContent :: (batchEvents loads reg tcs ++ cont.events),
       mkRequest model msgs :: cont.requests, cont.messages⟩

/-- max_iterations from agent.py line 215. -/
def max_iterations : Nat := 5

/-- SYSTEM_PROMPT from agent.py lines 17-37. -/
def SYSTEM_PROMPT : String :=
  "You are a Meeting AI Agent. You analyze meeting transcripts and produce structured outputs.\n\n" ++
  "Based on the content of the transcript, decide which tool(s) to call:\n\n" ++
  "1. **create_calendar_invite** — Use when the transcript mentions a scheduled follow-up meeting, \n" ++
  "   a deadline, or any event with a specific date/time. Extract the event details.\n\n" ++
  "2. **create_decision_record** — Use when the transcript contains a clear decision that was made \n" ++
  "   during the meeting. Document the context, the decision itself, and its consequences.\n\n" ++
  "3. **create_report** — Use when the transcript is a general meeting discussion. Summarize it \n" ++
  "   into a structured report with key points and action items.\n\n" ++
  "You may call MULTIPLE tools if appropriate. For example, a meeting might warrant both a report \n" ++
  "AND a calendar invite for a follow-up.\n\n" ++
  "Always extract as much relevant detail from the transcript as possible. Use ISO 8601 format for \n" ++
  "dates/times (e.g. 2026-02-20T14:00:00). If a date/time is not explicitly stated, make a \n" ++
  "reasonable inference or use \"TBD\".\n\n" ++
  "After all tool calls are done, provide a brief summary of what you produced."

/-- The initial conversation of run_agent (agent.py lines 209-212). -/
def initialMessages (transcript : String) : List Msg :=
  [ Msg.system SYSTEM_PROMPT,
    Msg.user ("Please analyze this meeting transcript:\n\n" ++ transcript) ]

/-- run_agent from agent.py lines 200-327, as a function of the injected
gateway behavior, JSON parser, registry, model name and transcript. -/
def run_agent (gw : Nat → GatewayResult) (loads : String → Option JValue)
    (reg : List (String × ToolFn)) (model : String) (transcript : String) : RunOutput :=
  agentLoop gw loads reg model max_iterations 0 (initialMessages transcript)

/-- Kind test: is this event a terminating event (final or error)? -/
def Event.isTerminal : Event → Bool
  | Event.final _ => true
  | Event.error _ => true
  | _ => false

/-- Kind test: thinking event. -/
def Event.isThinking : Event → Bool
  | Event.thinking _ => true
  | _ => false

/-- Kind test: tool_call event. -/
def Event.isToolCall : Event → Bool
  | Event.tool_call _ _ => true
  | _ => false

/-- Kind test: tool_result event. -/
def Event.isToolResult : Event → Bool
  | Event.tool_result _ _ => true
  | _ => false

/-- The tool name carried by a tool_call or tool_result event. -/
def Event.toolOf : Event → Option String
  | Event.tool_call t _ => some t
  | Event.tool_result t _ => some t
  | _ => none

/-- Fine-grained actions of one Dispatching phase, distinguishing when the
assistant tool-request message is appended relative to the call loop. -/
inductive BatchAction where
  | append_assistant : BatchAction
  | run_call (name : String) : BatchAction
  | append_tool_result (id : String) : BatchAction

/-- The order of conversation appends and call executions in one
Dispatching phase of run_agent: messages.append(message.model_dump()) at
line 275 happens first, then for each call the execution (line 293) and
the tool-result append (lines 306-312). -/
def dispatchTrace (tcs : List ToolCall) : List BatchAction :=
  BatchAction.append_assistant ::
    tcs.flatMap (fun tc => [BatchAction.run_call tc.name, BatchAction.append_tool_result tc.id])

/-- Action test: assistant-message append. -/
def BatchAction.isAppendAssistant : BatchAction → Bool
  | BatchAction.append_assistant => true
  | _ => false

/-- Action test: tool-call execution. -/
def BatchAction.isRunCall : BatchAction → Bool
  | BatchAction.run_call _ => true
  | _ => false

/-- Does the Dispatching phase append the assistant message only after all
calls of the batch have run?  True exactly when no run_call action follows
the append_assistant action in the dispatch trace. -/
def assistantAfterAllCalls (tcs : List ToolCall) : Bool :=
  (((dispatchTrace tcs).dropWhile (fun a => !a.isAppendAssistant)).tail).all
    (fun a => !a.isRunCall)

/-- History invariant: every assistant message that carries tool calls is
immediately followed by the tool-result messages answering those calls, in
order, correlated by tool_call_id. -/
def assistantFollowedByResults (msgs : List Msg) : Prop :=
  ∀ k c tcs, msgs[k]? = some (Msg.assistant c tcs) →
    ∀ j tc, tcs[j]? = some tc →
      ∃ r, msgs[k + 1 + j]? = some (Msg.tool tc.id r)

/-! ## tools/calendar_invite.py -/

/-- A python datetime value (naive), with the fields used by the source. -/
structure PyDateTime where
  year : Nat
  month : Nat
  day : Nat
  hour : Nat
  minute : Nat
  second : Nat
  microsecond : Nat

/-- datetime.replace(hour=h, minute=m, second=s, microsecond=us). -/
def PyDateTime.replaceTime (d : PyDateTime) (h m s us : Nat) : PyDateTime :=
  { d with hour := h, minute := m, second := s, microsecond := us }

/-- Zero-pad a number to at least w digits, as python strftime/isoformat do. -/
def padNum (w : Nat) (n : Nat) : String :=
  let s := toString n
  String.mk (List.replicate (w - s.length) (Char.ofNat 48)) ++ s

/-- datetime.isoformat() for naive datetimes: the microsecond part is
printed only when nonzero. -/
def PyDateTime.isoformat (d : PyDateTime) : String :=
  padNum 4 d.year ++ "-" ++ padNum 2 d.month ++ "-" ++ padNum 2 d.day ++ "T" ++
    padNum 2 d.hour ++ ":" ++ padNum 2 d.minute ++ ":" ++ padNum 2 d.second ++
    (if d.microsecond = 0 then "" else "." ++ padNum 6 d.microsecond)

/-- strftime("%Y%m%dT%H%M%S"), used for the Google Calendar URL. -/
def PyDateTime.strftimeCompact (d : PyDateTime) : String :=
  padNum 4 d.year ++ padNum 2 d.month ++ padNum 2 d.day ++ "T" ++
    padNum 2 d.hour ++ padNum 2 d.minute ++ padNum 2 d.second

/-- build_google_calendar_url from calendar_invite.py lines 69-82, with
urllib quote injected. -/
def build_google_calendar_url (quote : String → String)
    (title description : String) (start stop : PyDateTime) : String :=
  "https://calendar.google.com/calendar/render" ++
    "?action=TEMPLATE&text=" ++ quote title ++
    "&dates=" ++ start.strftimeCompact ++ "/" ++ stop.strftimeCompact ++
    "&details=" ++ quote description

/-- event_details of the calendar artifact (calendar_invite.py lines 59-65). -/
structure EventDetails where
  title : String
  description : String
  start_time : String
  end_time : String
  attendees : List String

/-- The dict returned by create_calendar_invite (lines 55-66). -/
structure CalendarInvite where
  type : String
  ics_content : String
  google_calendar_url : String
  event_details : EventDetails

/-- External collaborators of create_calendar_invite: datetime.fromisoformat
(raising modelled as none), datetime.now(), the icalendar rendering of the
built Calendar object, and urllib percent-quoting. -/
structure CalEnv where
  fromisoformat : String → Option PyDateTime
  now : PyDateTime
  renderICS : String → String → PyDateTime → PyDateTime → List String → String
  quote : String → String

/-- create_calendar_invite from calendar_invite.py lines 8-66.  The try
block parses both times; a ValueError from either parse makes both fall
back to today at 09:00 and 10:00 (lines 23-28). -/
def create_calendar_invite (env : CalEnv) (title start_time end_time : String)
    (description : String := "") (attendees : Option (List String) := none) :
    CalendarInvite :=
  let times :=
    match env.fromisoformat start_time, env.fromisoformat end_time with
    | some s, some e => (s, e)
    | _, _ => (env.now.replaceTime 9 0 0 0, env.now.replaceTime 10 0 0 0)
  { type := "calendar_invite",
    ics_content := env.renderICS title description times.1 times.2 (attendees.getD []),
    google_calendar_url := build_google_calendar_url env.quote title description times.1 times.2,
    event_details :=
      { title := title,
        description := description,
        start_time := times.1.isoformat,
        end_time := times.2.isoformat,
        attendees := attendees.getD [] } }

/-! ## tools/sentiment.py -/

/-- details dict of the sentiment artifact (sentiment.py lines 55-62). -/
structure SentimentDetails where
  overall_tone : String
  tone_details : String
  conflict_detected : Bool
  conflict_details : String
  key_emotions : List String
  productivity_score : Int

/-- The dict returned by analyze_sentiment (lines 49-63). -/
structure SentimentResult where
  type : String
  tone : String
  badge : String
  badge_color : String
  conflict_detected : Bool
  details : SentimentDetails

/-- python str.capitalize(): first character uppercased, rest lowercased. -/
def pyCapitalize (s : String) : String :=
  match s.toList with
  | [] => ""
  | c :: rest => String.mk (c.toUpper :: rest.map Char.toLower)

/-- tone_badges from sentiment.py lines 32-40. -/
def tone_badges : List (String × String × String) :=
  [ ("productive", "Productive", "green"),
    ("tense", "Tension Detected", "red"),
    ("casual", "Casual", "blue"),
    ("mixed", "Mixed Tone", "yellow"),
    ("positive", "Positive", "green"),
    ("negative", "Negative", "red"),
    ("neutral", "Neutral", "gray") ]

/-- Association lookup mirroring dict.get over tone_badges. -/
def lookupBadge (key : String) : Option (String × String) :=
  (tone_badges.find? (fun p => p.1 = key)).map (fun p => p.2)

/-- analyze_sentiment from sentiment.py lines 4-63.  Note
`productivity_score or 5`: python treats both None and 0 as falsy, so 0
falls back to 5 before the clamp min(max(., 1), 10). -/
def analyze_sentiment (overall_tone tone_details : String)
    (conflict_detected : Bool := false)
    (conflict_details : Option String := none)
    (key_emotions : Option (List String) := none)
    (productivity_score : Option Int := none) : SentimentResult :=
  let emotions := match key_emotions with
    | none => []
    | some l => if l = [] then [] else l
  let base : Int := match productivity_score with
    | none => 5
    | some n => if n = 0 then 5 else n
  let score : Int := min (max base 1) 10
  let bd := (lookupBadge overall_tone.toLower).getD (pyCapitalize overall_tone, "gray")
  let bd2 := if conflict_detected && !(bd.2 == "red")
    then (bd.1 ++ " + Conflict", "yellow")
    else bd
  { type := "sentiment",
    tone := overall_tone,
    badge := bd2.1,
    badge_color := bd2.2,
    conflict_detected := conflict_detected,
    details :=
      { overall_tone := overall_tone,
        tone_details := tone_details,
        conflict_detected := conflict_detected,
        conflict_details := match conflict_details with
          | none => ""
          | some s => if s = "" then "" else s,
        key_emotions := emotions,
        productivity_score := score } }

/-! ## Concrete instantiations used to evaluate the theorems -/

/-- A scripted gateway that always requests one tool call. -/
def gwAllBatches : Nat → GatewayResult :=
  fun _ => GatewayResult.success none [⟨"call_1", "create_report", "x"⟩]

/-- A scripted gateway that immediately returns a final text. -/
def gwFinal : Nat → GatewayResult :=
  fun _ => GatewayResult.success (some "done") []

/-- A JSON parser that fails on every payload. -/
def loadsNone : String → Option JValue := fun _ => none

/-- A JSON parser that succeeds only on the payload "good". -/
def loadsSel : String → Option JValue :=
  fun s => if s = "good" then some (JValue.obj [("title", JValue.str "T")]) else none

/-- Tool implementations that all succeed with null. -/
def implTrivial : ToolImpls :=
  ⟨fun _ => Except.ok JValue.null, fun _ => Except.ok JValue.null,
   fun _ => Except.ok JValue.null, fun _ => Except.ok JValue.null,
   fun _ => Except.ok JValue.null, fun _ => Except.ok JValue.null⟩

/-- A tool callable that raises. -/
def toolFail : ToolFn := fun _ => Except.error "boom"

/-- A one-entry registry whose tool raises. -/
def regFail : List (String × ToolFn) := [("create_report", toolFail)]

/-- A two-call batch. -/
def tcsPair : List ToolCall :=
  [⟨"call_1", "create_report", "x"⟩, ⟨"call_2", "analyze_sentiment", "y"⟩]

/-- A two-call batch whose first payload is unparsable and whose second is
the parsable payload "good". -/
def tcsBad : List ToolCall :=
  [⟨"call_1", "create_report", "bad"⟩, ⟨"call_2", "analyze_sentiment", "good"⟩]

/-- A concrete calendar environment: parsing always fails, now is
2026-10-12 08:30:00. -/
def calEnvW : CalEnv :=
  ⟨fun _ => none, ⟨2026, 10, 12, 8, 30, 0, 0⟩, fun _ _ _ _ _ => "", fun s => s⟩

/-! ## Helper lemmas -/

theorem agentLoop_zero_eq (gw : Nat → GatewayResult) (loads : String → Option JValue)
    (reg : List (String × ToolFn)) (model : String) (i : Nat) (msgs : List Msg) :
    agentLoop gw loads reg model 0 i msgs = ⟨[Event.final maxIterationsContent], [], msgs⟩ := rfl

theorem agentLoop_failure_eq (gw : Nat → GatewayResult) (loads : String → Option JValue)
    (reg : List (String × ToolFn)) (model : String) (fuel i : Nat) (msgs : List Msg)
    (e : String) (h : gw i = GatewayResult.failure e) :
    agentLoop gw loads reg model (fuel+1) i msgs =
      ⟨[Event.thinking thinkingContent, Event.error ("LLM API error: " ++ e)],
       [mkRequest model msgs], msgs⟩ := by
  simp [agentLoop, h]

theorem agentLoop_final_eq (gw : Nat → GatewayResult) (loads : String → Option JValue)
    (reg : List (String × ToolFn)) (model : String) (fuel i : Nat) (msgs : List Msg)
    (content : Option String) (h : gw i = GatewayResult.success content []) :
    agentLoop gw loads reg model (fuel+1) i msgs =
      ⟨[Event.thinking thinkingContent, Event.final (pyOrString content "Analysis complete.")],
       [mkRequest model msgs], msgs⟩ := by
  simp [agentLoop, h]

theorem agentLoop_batch_eq (gw : Nat → GatewayResult) (loads : String → Option JValue)
    (reg : List (String × ToolFn)) (model : String) (fuel i : Nat) (msgs : List Msg)
    (content : Option String) (tc : ToolCall) (rest : List ToolCall)
    (h : gw i = GatewayResult.success content (tc :: rest)) :
    agentLoop gw loads reg model (fuel+1) i msgs =
      ⟨Event.thinking thinkingContent ::
         (batchEvents loads reg (tc :: rest) ++
           (agentLoop gw loads reg model fuel (i+1)
             (msgs ++ Msg.assistant content (tc :: rest) ::
               batchMessages loads reg (tc :: rest))).events),
       mkRequest model msgs ::
         (agentLoop gw loads reg model fuel (i+1)
           (msgs ++ Msg.assistant content (tc :: rest) ::
             batchMessages loads reg (tc :: rest))).requests,
       (agentLoop gw loads reg model fuel (i+1)
         (msgs ++ Msg.assistant content (tc :: rest) ::
           batchMessages loads reg (tc :: rest))).messages⟩ := by
  simp [agentLoop, h]

theorem batchEvents_nil (loads : String → Option JValue) (reg : List (String × ToolFn)) :
    batchEvents loads reg [] = [] := rfl

theorem batchEvents_cons (loads : String → Option JValue) (reg : List (String × ToolFn))
    (tc : ToolCall) (tcs : List ToolCall) :
    batchEvents loads reg (tc :: tcs) =
      Event.tool_call tc.name (parsedArgs loads tc) ::
        Event.tool_result tc.name (execute_tool reg tc.name (parsedArgs loads tc)) ::
          batchEvents loads reg tcs := rfl

theorem batchEvents_kinds (loads : String → Option JValue) (reg : List (String × ToolFn))
    (tcs : List ToolCall) :
    ∀ e ∈ batchEvents loads reg tcs, e.isTerminal = false ∧ e.isThinking = false := by
  induction tcs with
  | nil => intro e he; simp [batchEvents_nil] at he
  | cons tc rest ih =>
    intro e he
    rw [batchEvents_cons] at he
    rcases List.mem_cons.mp he with he | he
    · subst he; exact ⟨rfl, rfl⟩
    rcases List.mem_cons.mp he with he | he
    · subst he; exact ⟨rfl, rfl⟩
    exact ih e he

theorem batchEvents_length (loads : String → Option JValue) (reg : List (String × ToolFn))
    (tcs : List ToolCall) :
    (batchEvents loads reg tcs).length = 2 * tcs.length := by
  induction tcs with
  | nil => rfl
  | cons tc rest ih => rw [batchEvents_cons]; simp [ih]; omega

theorem batchEvents_getElem_call (loads : String → Option JValue) (reg : List (String × ToolFn)) :
    ∀ (tcs : List ToolCall) (j : Nat) (tc : ToolCall), tcs[j]? = some tc →
      (batchEvents loads reg tcs)[2*j]? = some (Event.tool_call tc.name (parsedArgs loads tc)) := by
  intro tcs
  induction tcs with
  | nil => intro j tc h; simp at h
  | cons hd rest ih =>
    intro j tc h
    cases j with
    | zero => simp at h; subst h; rw [batchEvents_cons]; rfl
    | succ j =>
      rw [List.getElem?_cons_succ] at h
      rw [batchEvents_cons]
      have h2 : 2 * (j + 1) = (2 * j) + 1 + 1 := by omega
      rw [h2, List.getElem?_cons_succ, List.getElem?_cons_succ]
      exact ih j tc h

theorem batchEvents_getElem_result (loads : String → Option JValue) (reg : List (String × ToolFn)) :
    ∀ (tcs : List ToolCall) (j : Nat) (tc : ToolCall), tcs[j]? = some tc →
      (batchEvents loads reg tcs)[2*j+1]? =
        some (Event.tool_result tc.name (execute_tool reg tc.name (parsedArgs loads tc))) := by
  intro tcs
  induction tcs with
  | nil => intro j tc h; simp at h
  | cons hd rest ih =>
    intro j tc h
    cases j with
    | zero => simp at h; subst h; rw [batchEvents_cons]; simp
    | succ j =>
      rw [List.getElem?_cons_succ] at h
      rw [batchEvents_cons]
      have h2 : 2 * (j + 1) + 1 = (2 * j + 1) + 1 + 1 := by omega
      rw [h2, List.getElem?_cons_succ, List.getElem?_cons_succ]
      exact ih j tc h

theorem batchEvents_filter_calls (loads : String → Option JValue) (reg : List (String × ToolFn))
    (tcs : List ToolCall) :
    (batchEvents loads reg tcs).filter Event.isToolCall =
      tcs.map (fun tc => Event.tool_call tc.name (parsedArgs loads tc)) := by
  induction tcs with
  | nil => rfl
  | cons tc rest ih =>
    rw [batchEvents_cons]
    simp [List.filter, Event.isToolCall, ih]

theorem batchEvents_filter_results (loads : String → Option JValue) (reg : List (String × ToolFn))
    (tcs : List ToolCall) :
    (batchEvents loads reg tcs).filter Event.isToolResult =
      tcs.map (fun tc =>
        Event.tool_result tc.name (execute_tool reg tc.name (parsedArgs loads tc))) := by
  induction tcs with
  | nil => rfl
  | cons tc rest ih =>
    rw [batchEvents_cons]
    simp [List.filter, Event.isToolResult, ih]

theorem agentLoop_terminal_shape (gw : Nat → GatewayResult) (loads : String → Option JValue)
    (reg : List (String × ToolFn)) (model : String) :
    ∀ (fuel i : Nat) (msgs : List Msg),
      ∃ pre e, (agentLoop gw loads reg model fuel i msgs).events = pre ++ [e] ∧
        e.isTerminal = true ∧ ∀ x ∈ pre, x.isTerminal = false := by
  intro fuel
  induction fuel with
  | zero =>
    intro i msgs
    exact ⟨[], Event.final maxIterationsContent, rfl, rfl, by intro x hx; simp at hx⟩
  | succ n ih =>
    intro i msgs
    cases hgw : gw i with
    | failure e =>
      refine ⟨[Event.thinking thinkingContent], Event.error ("LLM API error: " ++ e), ?_, rfl, ?_⟩
      · rw [agentLoop_failure_eq gw loads reg model n i msgs e hgw]; rfl
      · intro x hx; rcases List.mem_singleton.mp hx with rfl; rfl

    | success content tcs =>
      cases tcs with
      | nil =>
        refine ⟨[Event.thinking thinkingContent],
          Event.final (pyOrString content "Analysis complete."), ?_, rfl, ?_⟩
        · rw [agentLoop_final_eq gw loads reg model n i msgs content hgw]; rfl
        · intro x hx; rcases List.mem_singleton.mp hx with rfl; rfl
      | cons tc rest =>
        obtain ⟨pre, e, hev, hterm, hpre⟩ :=
          ih (i+1) (msgs ++ Msg.assistant content (tc :: rest) ::
            batchMessages loads reg (tc :: rest))
        refine ⟨Event.thinking thinkingContent :: (batchEvents loads reg (tc :: rest) ++ pre),
          e, ?_, hterm, ?_⟩
        · rw [agentLoop_batch_eq gw loads reg model n i msgs content tc rest hgw]
          simp [hev]
        · intro x hx
          rcases List.mem_cons.mp hx with rfl | hx
          · rfl
          rcases List.mem_append.mp hx with hx | hx
          · exact (batchEvents_kinds loads reg (tc :: rest) x hx).1
          · exact hpre x hx

theorem agentLoop_requests_le (gw : Nat → GatewayResult) (loads : String → Option JValue)
    (reg : List (String × ToolFn)) (model : String) :
    ∀ (fuel i : Nat) (msgs : List Msg),
      (agentLoop gw loads reg model fuel i msgs).requests.length ≤ fuel := by
  intro fuel
  induction fuel with
  | zero => intro i msgs; simp [agentLoop_zero_eq]
  | succ n ih =>
    intro i msgs
    cases hgw : gw i with
    | failure e =>
      rw [agentLoop_failure_eq gw loads reg model n i msgs e hgw]
      simp
    | success content tcs =>
      cases tcs with
      | nil =>
        rw [agentLoop_final_eq gw loads reg model n i msgs content hgw]
        simp
      | cons tc rest =>
        rw [agentLoop_batch_eq gw loads reg model n i msgs content tc rest hgw]
        simpa using ih (i+1) _

theorem agentLoop_exhaustion (gw : Nat → GatewayResult) (loads : String → Option JValue)
    (reg : List (String × ToolFn)) (model : String) :
    ∀ (fuel i : Nat) (msgs : List Msg),
      (∀ j, j < fuel → ∃ c tc rest, gw (i + j) = GatewayResult.success c (tc :: rest)) →
      (agentLoop gw loads reg model fuel i msgs).requests.length = fuel ∧
        ∃ pre, (agentLoop gw loads reg model fuel i msgs).events =
          pre ++ [Event.final maxIterationsContent] := by
  intro fuel
  induction fuel with
  | zero =>
    intro i msgs _
    exact ⟨rfl, [], rfl⟩
  | succ n ih =>
    intro i msgs h
    obtain ⟨c, tc, rest, hgw⟩ := h 0 (Nat.succ_pos n)
    rw [Nat.add_zero] at hgw
    obtain ⟨hlen, pre, hev⟩ := ih (i+1)
      (msgs ++ Msg.assistant c (tc :: rest) :: batchMessages loads reg (tc :: rest))
      (by
        intro j hj
        have := h (j+1) (by omega)
        rwa [show i + (j + 1) = i + 1 + j by omega] at this)
    constructor
    · rw [agentLoop_batch_eq gw loads reg model n i msgs c tc rest hgw]
      simp [hlen]
    · refine ⟨Event.thinking thinkingContent :: (batchEvents loads reg (tc :: rest) ++ pre), ?_⟩
      rw [agentLoop_batch_eq gw loads reg model n i msgs c tc rest hgw]
      simp [hev]

theorem agentLoop_requests_form (gw : Nat → GatewayResult) (loads : String → Option JValue)
    (reg : List (String × ToolFn)) (model : String) :
    ∀ (fuel i : Nat) (msgs : List Msg),
      ∀ req ∈ (agentLoop gw loads reg model fuel i msgs).requests,
        req.tools = TOOLS_SCHEMA ∧ req.tool_choice = "auto" ∧ req.model = model := by
  intro fuel
  induction fuel with
  | zero =>
    intro i msgs req hreq
    rw [agentLoop_zero_eq] at hreq
    simp at hreq
  | succ n ih =>
    intro i msgs req hreq
    cases hgw : gw i with
    | failure e =>
      rw [agentLoop_failure_eq gw loads reg model n i msgs e hgw] at hreq
      rcases List.mem_singleton.mp hreq with rfl
      exact ⟨rfl, rfl, rfl⟩
    | success content tcs =>
      cases tcs with
      | nil =>
        rw [agentLoop_final_eq gw loads reg model n i msgs content hgw] at hreq
        rcases List.mem_singleton.mp hreq with rfl
        exact ⟨rfl, rfl, rfl⟩
      | cons tc rest =>
        rw [agentLoop_batch_eq gw loads reg model n i msgs content tc rest hgw] at hreq
        rcases List.mem_cons.mp hreq with rfl | hreq
        · exact ⟨rfl, rfl, rfl⟩
        · exact ih (i+1) _ req hreq

theorem lookupTool_eq_none (name : String) :
    ∀ (reg : List (String × ToolFn)), name ∉ reg.map Prod.fst → lookupTool reg name = none := by
  intro reg
  induction reg with
  | nil => intro _; rfl
  | cons p rest ih =>
    intro h
    simp only [List.map_cons, List.mem_cons] at h
    push_neg at h
    rw [lookupTool]
    rw [if_neg (by exact fun hk => h.1 hk.symm)]
    exact ih h.2

theorem afr_initial (transcript : String) :
    assistantFollowedByResults (initialMessages transcript) := by
  intro k c tcs h
  rcases k with _ | _ | k <;> simp [initialMessages] at h

theorem afr_extend (msgs : List Msg) (loads : String → Option JValue)
    (reg : List (String × ToolFn)) (c : Option String) (tcs : List ToolCall)
    (h : assistantFollowedByResults msgs) :
    assistantFollowedByResults
      (msgs ++ Msg.assistant c tcs :: batchMessages loads reg tcs) := by
  intro k c2 tcs2 hk j tc hj
  rcases Nat.lt_trichotomy k msgs.length with hlt | heq | hgt
  · -- the assistant message at k was already in msgs
    rw [List.getElem?_append_left hlt] at hk
    obtain ⟨r, hr⟩ := h k c2 tcs2 hk j tc hj
    have hb : k + 1 + j < msgs.length := by
      by_contra hge
      rw [List.getElem?_eq_none (by omega)] at hr
      exact Option.noConfusion hr
    exact ⟨r, by rw [List.getElem?_append_left hb]; exact hr⟩
  · -- k is exactly the freshly appended assistant message
    subst heq
    rw [List.getElem?_append_right (Nat.le_refl _)] at hk
    simp at hk
    obtain ⟨hc, htcs⟩ := hk
    subst hc; subst htcs
    refine ⟨execute_tool reg tc.name (parsedArgs loads tc), ?_⟩
    rw [List.getElem?_append_right (by omega)]
    have hidx : msgs.length + 1 + j - msgs.length = j + 1 := by omega
    rw [hidx, List.getElem?_cons_succ]
    unfold batchMessages
    rw [List.getElem?_map, hj]
    rfl
  · -- beyond the assistant message there are only tool-result messages
    exfalso
    rw [List.getElem?_append_right (by omega)] at hk
    rcases hidx : k - msgs.length with _ | m
    · omega
    · rw [hidx, List.getElem?_cons_succ] at hk
      unfold batchMessages at hk
      rw [List.getElem?_map] at hk
      rcases htc : tcs[m]? with _ | tc0
      · rw [htc] at hk; exact Option.noConfusion hk
      · rw [htc] at hk
        simp [callMessage] at hk

theorem agentLoop_afr (gw : Nat → GatewayResult) (loads : String → Option JValue)
    (reg : List (String × ToolFn)) (model : String) :
    ∀ (fuel i : Nat) (msgs : List Msg),
      assistantFollowedByResults msgs →
      assistantFollowedByResults (agentLoop gw loads reg model fuel i msgs).messages := by
  intro fuel
  induction fuel with
  | zero => intro i msgs h; rw [agentLoop_zero_eq]; exact h
  | succ n ih =>
    intro i msgs h
    cases hgw : gw i with
    | failure e =>
      rw [agentLoop_failure_eq gw loads reg model n i msgs e hgw]
      exact h
    | success content tcs =>
      cases tcs with
      | nil =>
        rw [agentLoop_final_eq gw loads reg model n i msgs content hgw]
        exact h
      | cons tc rest =>
        rw [agentLoop_batch_eq gw loads reg model n i msgs content tc rest hgw]
        exact ih (i+1) _ (afr_extend msgs loads reg content (tc :: rest) h)

/-! ## Claims -/

/-- C1: for every transcript and every sequence of gateway responses, the
event sequence of run_agent contains exactly one terminating event (final
or error), it is the last event, every earlier event is non-terminating,
and the filter of terminating events has length one. -/
theorem claim_C1_terminal_event (gw : Nat → GatewayResult) (loads : String → Option JValue)
    (reg : List (String × ToolFn)) (model transcript : String) :
    ∃ pre e, (run_agent gw loads reg model transcript).events = pre ++ [e] ∧
      e.isTerminal = true ∧ (∀ x ∈ pre, x.isTerminal = false) ∧
      ((run_agent gw loads reg model transcript).events.filter Event.isTerminal).length = 1 := by
  obtain ⟨pre, e, hev, hterm, hpre⟩ :=
    agentLoop_terminal_shape gw loads reg model max_iterations 0 (initialMessages transcript)
  refine ⟨pre, e, hev, hterm, hpre, ?_⟩
  have hev2 : (run_agent gw loads reg model transcript).events = pre ++ [e] := hev
  rw [hev2, List.filter_append,
    List.filter_eq_nil_iff.mpr (by intro a ha; simp [hpre a ha])]
  simp [hterm]

/-- C2: the gateway is called at most 5 times per run, and when all of the
first 5 responses carry tool requests the run makes exactly 5 gateway
calls and ends with the synthetic final event for the exhausted budget,
so a 6th call never occurs. -/
theorem claim_C2_iteration_budget (gw : Nat → GatewayResult) (loads : String → Option JValue)
    (reg : List (String × ToolFn)) (model transcript : String) :
    (run_agent gw loads reg model transcript).requests.length ≤ 5 ∧
    ((∀ j, j < 5 → ∃ c tc rest, gw j = GatewayResult.success c (tc :: rest)) →
      (run_agent gw loads reg model transcript).requests.length = 5 ∧
      ∃ pre, (run_agent gw loads reg model transcript).events =
        pre ++ [Event.final maxIterationsContent]) := by
  constructor
  · exact agentLoop_requests_le gw loads reg model max_iterations 0 _
  · intro h
    exact agentLoop_exhaustion gw loads reg model max_iterations 0 (initialMessages transcript)
      (by intro j hj; simpa using h j hj)

/-- Witness for C2: a gateway that always returns a tool batch drives the
run to exactly 5 requests and the synthetic final event. -/
theorem claim_C2_witness :
    (run_agent gwAllBatches loadsNone [] "m" "t").requests.length = 5 ∧
    ∃ pre, (run_agent gwAllBatches loadsNone [] "m" "t").events =
      pre ++ [Event.final maxIterationsContent] :=
  (claim_C2_iteration_budget gwAllBatches loadsNone [] "m" "t").2
    (fun _ _ => ⟨none, ⟨"call_1", "create_report", "x"⟩, [], rfl⟩)

/-- C3 counterexample: in the Dispatching phase the assistant tool-request
message is appended before the calls run (agent.py line 275 precedes the
loop at line 277), so for a one-call batch the claim that it is appended
after all calls are processed is false. -/
theorem claim_C3_counterexample :
    assistantAfterAllCalls [⟨"call_1", "create_report", "x"⟩] = false := rfl

/-- C3 amended: the assistant tool-request message is appended to the
Conversation before the calls of the batch are processed, and the
resulting history always has that assistant turn immediately preceding
the tool-result messages answering its tool calls. -/
theorem claim_C3_amended_append_order :
    (∀ tcs : List ToolCall, (dispatchTrace tcs).head? = some BatchAction.append_assistant) ∧
    (∀ (gw : Nat → GatewayResult) (loads : String → Option JValue)
      (reg : List (String × ToolFn)) (model transcript : String),
      assistantFollowedByResults (run_agent gw loads reg model transcript).messages) := by
  constructor
  · intro tcs; rfl
  · intro gw loads reg model transcript
    exact agentLoop_afr gw loads reg model max_iterations 0 _ (afr_initial transcript)

/-- Witness for C3: the amended statement evaluated on a concrete batch
and a concrete completed run. -/
theorem claim_C3_amended_witness :
    (dispatchTrace tcsPair).head? = some BatchAction.append_assistant ∧
    assistantFollowedByResults (run_agent gwFinal loadsNone [] "m" "t").messages :=
  ⟨claim_C3_amended_append_order.1 tcsPair,
   claim_C3_amended_append_order.2 gwFinal loadsNone [] "m" "t"⟩

/-- C4: per Dispatching batch, tool_call and tool_result events come in
equal numbers, the i-th pair shares the tool name of the i-th request,
each tool_call immediately precedes its tool_result, the batch contains
no thinking event, and the next thinking event comes only after the whole
batch in the loop's event stream. -/
theorem claim_C4_batch_pairing (loads : String → Option JValue)
    (reg : List (String × ToolFn)) (tcs : List ToolCall) :
    ((batchEvents loads reg tcs).filter Event.isToolCall).length = tcs.length ∧
    ((batchEvents loads reg tcs).filter Event.isToolResult).length = tcs.length ∧
    (∀ j tc, tcs[j]? = some tc →
      ((batchEvents loads reg tcs).filter Event.isToolCall)[j]? =
        some (Event.tool_call tc.name (parsedArgs loads tc)) ∧
      ((batchEvents loads reg tcs).filter Event.isToolResult)[j]? =
        some (Event.tool_result tc.name (execute_tool reg tc.name (parsedArgs loads tc))) ∧
      (batchEvents loads reg tcs)[2*j]? =
        some (Event.tool_call tc.name (parsedArgs loads tc)) ∧
      (batchEvents loads reg tcs)[2*j+1]? =
        some (Event.tool_result tc.name (execute_tool reg tc.name (parsedArgs loads tc)))) ∧
    (∀ e ∈ batchEvents loads reg tcs, e.isThinking = false) ∧
    (∀ (gw : Nat → GatewayResult) (model : String) (fuel i : Nat) (msgs : List Msg)
      (c : Option String) (tc : ToolCall) (rest : List ToolCall),
      gw i = GatewayResult.success c (tc :: rest) →
      (agentLoop gw loads reg model (fuel+1) i msgs).events =
        Event.thinking thinkingContent ::
          (batchEvents loads reg (tc :: rest) ++
            (agentLoop gw loads reg model fuel (i+1)
              (msgs ++ Msg.assistant c (tc :: rest) ::
                batchMessages loads reg (tc :: rest))).events)) := by
  refine ⟨?_, ?_, ?_, ?_, ?_⟩
  · rw [batchEvents_filter_calls]; simp
  · rw [batchEvents_filter_results]; simp
  · intro j tc hj
    refine ⟨?_, ?_, batchEvents_getElem_call loads reg tcs j tc hj,
      batchEvents_getElem_result loads reg tcs j tc hj⟩
    · rw [batchEvents_filter_calls, List.getElem?_map, hj]; rfl
    · rw [batchEvents_filter_results, List.getElem?_map, hj]; rfl
  · intro e he; exact (batchEvents_kinds loads reg tcs e he).2
  · intro gw model fuel i msgs c tc rest hgw
    rw [agentLoop_batch_eq gw loads reg model fuel i msgs c tc rest hgw]

/-- Witness for C4: the pairing evaluated on a concrete two-call batch. -/
theorem claim_C4_witness :
    ((batchEvents loadsNone [] tcsPair).filter Event.isToolCall).length = tcsPair.length ∧
    (batchEvents loadsNone [] tcsPair)[2*1]? =
      some (Event.tool_call "analyze_sentiment" (JValue.obj [])) ∧
    (batchEvents loadsNone [] tcsPair)[2*1+1]? =
      some (Event.tool_result "analyze_sentiment"
        (errObj ("Unknown tool: " ++ "analyze_sentiment"))) :=
  ⟨(claim_C4_batch_pairing loadsNone [] tcsPair).1,
   ((claim_C4_batch_pairing loadsNone [] tcsPair).2.2.1 1
     ⟨"call_2", "analyze_sentiment", "y"⟩ rfl).2.2.1,
   ((claim_C4_batch_pairing loadsNone [] tcsPair).2.2.1 1
     ⟨"call_2", "analyze_sentiment", "y"⟩ rfl).2.2.2⟩

/-- C5: dispatching an unregistered tool name returns the artifact
error Unknown tool: name without raising, every call of a batch still
yields its pair of events regardless of results, and a tool batch always
loops back to the next iteration instead of terminating. -/
theorem claim_C5_unknown_tool (impl : ToolImpls) (name : String) (args : JValue)
    (h : name ∉ (TOOL_REGISTRY impl).map Prod.fst) :
    execute_tool (TOOL_REGISTRY impl) name args = errObj ("Unknown tool: " ++ name) ∧
    (∀ (loads : String → Option JValue) (tcs : List ToolCall),
      (batchEvents loads (TOOL_REGISTRY impl) tcs).length = 2 * tcs.length) ∧
    (∀ (gw : Nat → GatewayResult) (loads : String → Option JValue) (model : String)
      (fuel i : Nat) (msgs : List Msg) (c : Option String) (tc : ToolCall)
      (rest : List ToolCall),
      gw i = GatewayResult.success c (tc :: rest) →
      (agentLoop gw loads (TOOL_REGISTRY impl) model (fuel+1) i msgs).events =
        Event.thinking thinkingContent ::
          (batchEvents loads (TOOL_REGISTRY impl) (tc :: rest) ++
            (agentLoop gw loads (TOOL_REGISTRY impl) model fuel (i+1)
              (msgs ++ Msg.assistant c (tc :: rest) ::
                batchMessages loads (TOOL_REGISTRY impl) (tc :: rest))).events)) := by
  refine ⟨?_, ?_, ?_⟩
  · rw [execute_tool, lookupTool_eq_none name _ h]
  · intro loads tcs; exact batchEvents_length loads _ tcs
  · intro gw loads model fuel i msgs c tc rest hgw
    rw [agentLoop_batch_eq gw loads _ model fuel i msgs c tc rest hgw]

/-- Witness for C5: a name outside the six registered tools yields the
Unknown tool artifact and the two-call batch still yields four events. -/
theorem claim_C5_witness :
    execute_tool (TOOL_REGISTRY implTrivial) "nonexistent_tool" JValue.null =
      errObj ("Unknown tool: " ++ "nonexistent_tool") ∧
    (batchEvents loadsNone (TOOL_REGISTRY implTrivial) tcsPair).length = 2 * tcsPair.length :=
  ⟨(claim_C5_unknown_tool implTrivial "nonexistent_tool" JValue.null (by decide)).1,
   (claim_C5_unknown_tool implTrivial "nonexistent_tool" JValue.null (by decide)).2.1
     loadsNone tcsPair⟩

/-- C6: a tool execution that raises is caught by execute_tool and turned
into the artifact error Tool execution failed: message, and every other
call of the batch still yields its own tool_call and tool_result events
at its own positions — the batch is not aborted. -/
theorem claim_C6_tool_exception (reg : List (String × ToolFn)) (name : String)
    (f : ToolFn) (args : JValue) (e : String)
    (hlook : lookupTool reg name = some f) (herr : f args = Except.error e) :
    execute_tool reg name args = errObj ("Tool execution failed: " ++ e) ∧
    (∀ (loads : String → Option JValue) (tcs : List ToolCall),
      (batchEvents loads reg tcs).length = 2 * tcs.length ∧
      ∀ j tc, tcs[j]? = some tc →
        (batchEvents loads reg tcs)[2*j]? =
          some (Event.tool_call tc.name (parsedArgs loads tc)) ∧
        (batchEvents loads reg tcs)[2*j+1]? =
          some (Event.tool_result tc.name (execute_tool reg tc.name (parsedArgs loads tc)))) := by
  refine ⟨?_, ?_⟩
  · simp only [execute_tool, hlook, herr]
  · intro loads tcs
    exact ⟨batchEvents_length loads reg tcs, fun j tc hj =>
      ⟨batchEvents_getElem_call loads reg tcs j tc hj,
       batchEvents_getElem_result loads reg tcs j tc hj⟩⟩

/-- Witness for C6: a raising tool produces the failure artifact and a
two-call batch still emits both event pairs. -/
theorem claim_C6_witness :
    execute_tool regFail "create_report" JValue.null =
      errObj ("Tool execution failed: " ++ "boom") ∧
    (batchEvents loadsNone regFail tcsPair).length = 2 * tcsPair.length :=
  ⟨(claim_C6_tool_exception regFail "create_report" toolFail JValue.null "boom" rfl rfl).1,
   ((claim_C6_tool_exception regFail "create_report" toolFail JValue.null "boom" rfl rfl).2
     loadsNone tcsPair).1⟩

/-- C7: a call whose argument payload does not parse is executed with the
empty argument dict, sibling calls with parsable payloads keep their own
parsed arguments, and the batch still yields all its events. -/
theorem claim_C7_malformed_args (loads : String → Option JValue)
    (reg : List (String × ToolFn)) (tcs : List ToolCall) (i : Nat) (tci : ToolCall)
    (hi : tcs[i]? = some tci) (hbad : loads tci.arguments = none) :
    (batchEvents loads reg tcs)[2*i]? = some (Event.tool_call tci.name (JValue.obj [])) ∧
    (batchEvents loads reg tcs)[2*i+1]? =
      some (Event.tool_result tci.name (execute_tool reg tci.name (JValue.obj []))) ∧
    (∀ j tcj aj, tcs[j]? = some tcj → loads tcj.arguments = some aj →
      (batchEvents loads reg tcs)[2*j]? = some (Event.tool_call tcj.name aj) ∧
      (batchEvents loads reg tcs)[2*j+1]? =
        some (Event.tool_result tcj.name (execute_tool reg tcj.name aj))) ∧
    (batchEvents loads reg tcs).length = 2 * tcs.length := by
  refine ⟨?_, ?_, ?_, batchEvents_length loads reg tcs⟩
  · have h := batchEvents_getElem_call loads reg tcs i tci hi
    simpa [parsedArgs, hbad] using h
  · have h := batchEvents_getElem_result loads reg tcs i tci hi
    simpa [parsedArgs, hbad] using h
  · intro j tcj aj hj ha
    have h1 := batchEvents_getElem_call loads reg tcs j tcj hj
    have h2 := batchEvents_getElem_result loads reg tcs j tcj hj
    exact ⟨by simpa [parsedArgs, ha] using h1, by simpa [parsedArgs, ha] using h2⟩

/-- Witness for C7: in a batch whose first payload is unparsable and whose
second parses, the first call runs with empty arguments and the second
with its parsed arguments. -/
theorem claim_C7_witness :
    (batchEvents loadsSel [] tcsBad)[2*0]? =
      some (Event.tool_call "create_report" (JValue.obj [])) ∧
    (batchEvents loadsSel [] tcsBad)[2*1]? =
      some (Event.tool_call "analyze_sentiment" (JValue.obj [("title", JValue.str "T")])) :=
  ⟨(claim_C7_malformed_args loadsSel [] tcsBad 0
      ⟨"call_1", "create_report", "bad"⟩ rfl rfl).1,
   ((claim_C7_malformed_args loadsSel [] tcsBad 0
      ⟨"call_1", "create_report", "bad"⟩ rfl rfl).2.2.1 1
      ⟨"call_2", "analyze_sentiment", "good"⟩
      (JValue.obj [("title", JValue.str "T")]) rfl rfl).1⟩

/-- C8 counterexample: TOOLS_SCHEMA, the schema set sent to the gateway,
has three entries, not six. -/
theorem claim_C8_counterexample : ¬ (TOOLS_SCHEMA.length = 6) := by decide

/-- C8 amended: every gateway request of a run carries TOOLS_SCHEMA with
automatic tool choice; TOOLS_SCHEMA declares exactly three tools
(calendar invite requiring title, start_time, end_time; decision record
requiring title, context, decision; report requiring title, summary,
key_points, action_items), while the registry maps six tool names. -/
theorem claim_C8_amended_schema (gw : Nat → GatewayResult) (loads : String → Option JValue)
    (reg : List (String × ToolFn)) (model transcript : String) :
    (∀ req ∈ (run_agent gw loads reg model transcript).requests,
      req.tools = TOOLS_SCHEMA ∧ req.tool_choice = "auto" ∧ req.model = model) ∧
    TOOLS_SCHEMA.length = 3 ∧
    TOOLS_SCHEMA.map ToolSchema.name =
      ["create_calendar_invite", "create_decision_record", "create_report"] ∧
    TOOLS_SCHEMA.map ToolSchema.required =
      [["title", "start_time", "end_time"],
       ["title", "context", "decision"],
       ["title", "summary", "key_points", "action_items"]] ∧
    (∀ impl : ToolImpls, (TOOL_REGISTRY impl).map Prod.fst =
      ["create_calendar_invite", "create_decision_record", "create_report",
       "create_email_summary", "create_action_items", "analyze_sentiment"]) := by
  refine ⟨?_, rfl, rfl, rfl, fun _ => rfl⟩
  exact agentLoop_requests_form gw loads reg model max_iterations 0 _

/-- Witness for C8: the single request of an immediately-final run carries
TOOLS_SCHEMA and automatic tool choice. -/
theorem claim_C8_witness :
    (mkRequest "m" (initialMessages "t")).tools = TOOLS_SCHEMA ∧
    (mkRequest "m" (initialMessages "t")).tool_choice = "auto" ∧
    (mkRequest "m" (initialMessages "t")).model = "m" :=
  (claim_C8_amended_schema gwFinal loadsNone [] "m" "t").1
    (mkRequest "m" (initialMessages "t"))
    (by
      rw [show (run_agent gwFinal loadsNone [] "m" "t").requests =
        [mkRequest "m" (initialMessages "t")] from rfl]
      exact List.mem_singleton.mpr rfl)

/-- C9: when either time string fails ISO 8601 parsing (datetime
fromisoformat raises), create_calendar_invite still returns a normal
calendar_invite artifact, with the start substituted by today at 09:00
and the end by today at 10:00, keeping title and attendees. -/
theorem claim_C9_invalid_datetime (env : CalEnv) (title description : String)
    (attendees : Option (List String)) (start_time end_time : String)
    (h : env.fromisoformat start_time = none ∨ env.fromisoformat end_time = none) :
    (create_calendar_invite env title start_time end_time description attendees).type =
      "calendar_invite" ∧
    (create_calendar_invite env title start_time end_time description
      attendees).event_details.start_time = (env.now.replaceTime 9 0 0 0).isoformat ∧
    (create_calendar_invite env title start_time end_time description
      attendees).event_details.end_time = (env.now.replaceTime 10 0 0 0).isoformat ∧
    (create_calendar_invite env title start_time end_time description
      attendees).event_details.title = title ∧
    (create_calendar_invite env title start_time end_time description
      attendees).event_details.attendees = attendees.getD [] := by
  rcases hs : env.fromisoformat start_time with _ | s <;>
    rcases he : env.fromisoformat end_time with _ | e <;>
      simp_all [create_calendar_invite]

/-- Witness for C9: with the placeholder token TBD for both times, the
artifact carries 2026-10-12T09:00:00 and 2026-10-12T10:00:00. -/
theorem claim_C9_witness :
    calEnvW.fromisoformat "TBD" = none ∧
    (create_calendar_invite calEnvW "Team Sync" "TBD" "TBD" "" none).type =
      "calendar_invite" ∧
    (create_calendar_invite calEnvW "Team Sync" "TBD" "TBD" "" none).event_details.start_time =
      "2026-10-12T09:00:00" ∧
    (create_calendar_invite calEnvW "Team Sync" "TBD" "TBD" "" none).event_details.end_time =
      "2026-10-12T10:00:00" :=
  ⟨rfl,
   (claim_C9_invalid_datetime calEnvW "Team Sync" "" none "TBD" "TBD" (Or.inl rfl)).1,
   (claim_C9_invalid_datetime calEnvW "Team Sync" "" none "TBD" "TBD" (Or.inl rfl)).2.1,
   (claim_C9_invalid_datetime calEnvW "Team Sync" "" none "TBD" "TBD" (Or.inl rfl)).2.2.1⟩

/-- C10: the productivity_score in the sentiment details always lies in
1..10; a missing, None or 0 score falls back to 5 (0 is treated as
missing, not clamped to 1); any other value is clamped into the range. -/
theorem claim_C10_productivity_clamp (overall_tone tone_details : String)
    (conflict_detected : Bool) (conflict_details : Option String)
    (key_emotions : Option (List String)) (productivity_score : Option Int) :
    1 ≤ (analyze_sentiment overall_tone tone_details conflict_detected conflict_details
      key_emotions productivity_score).details.productivity_score ∧
    (analyze_sentiment overall_tone tone_details conflict_detected conflict_details
      key_emotions productivity_score).details.productivity_score ≤ 10 ∧
    ((productivity_score = none ∨ productivity_score = some 0) →
      (analyze_sentiment overall_tone tone_details conflict_detected conflict_details
        key_emotions productivity_score).details.productivity_score = 5) ∧
    (∀ n : Int, productivity_score = some n → n ≠ 0 →
      (analyze_sentiment overall_tone tone_details conflict_detected conflict_details
        key_emotions productivity_score).details.productivity_score = min (max n 1) 10) := by
  have hval : (analyze_sentiment overall_tone tone_details conflict_detected conflict_details
      key_emotions productivity_score).details.productivity_score =
      min (max (match productivity_score with
        | none => (5 : Int)
        | some n => if n = 0 then 5 else n) 1) 10 := rfl
  refine ⟨?_, ?_, ?_, ?_⟩
  · rw [hval]
    rcases productivity_score with _ | n
    · norm_num
    · by_cases h0 : n = 0 <;> simp only [h0, if_true, if_false, reduceIte] <;>
        rw [min_def, max_def] <;> split_ifs <;> omega
  · rw [hval]
    rcases productivity_score with _ | n
    · norm_num
    · by_cases h0 : n = 0 <;> simp only [h0, if_true, if_false, reduceIte] <;>
        rw [min_def, max_def] <;> split_ifs <;> omega
  · intro h
    rcases h with rfl | rfl <;> rw [hval] <;> norm_num
  · intro n hn h0
    subst hn
    rw [hval]
    simp [h0]

/-- Witness for C10: a missing score becomes 5 and the out-of-range score
42 is clamped to 10. -/
theorem claim_C10_witness :
    (analyze_sentiment "productive" "ok" false none none none).details.productivity_score = 5 ∧
    (analyze_sentiment "tense" "x" true none none
      (some 42)).details.productivity_score = min (max 42 1) 10 :=
  ⟨(claim_C10_productivity_clamp "productive" "ok" false none none none).2.2.1 (Or.inl rfl),
   (claim_C10_productivity_clamp "tense" "x" true none none (some 42)).2.2.2 42 rfl
     (by norm_num)⟩

end MeetingAgent
